import Mathlib

/-!
Shallow embedding of the core of `riesgo_pais_app.py` (country-risk
dashboard): the numeric normalization applied to scraped price text, the
per-provider source adapters, the fallback resolver `get_bono_price`, the
sidebar state that feeds it in manual mode, and the risk computation
`obtener_riesgo_actual`.

Python floats are modelled as exact rationals (`ℚ`).  Network calls are
modelled by explicit outcome values: each adapter body is a total function
of the outcome of its HTTP / data-library call, and a raised exception that
would escape a function is modelled by `Option.none` at that function's
result (the adapters catch everything, so only `obtener_riesgo_actual`,
whose division is unguarded, can produce the exception marker).
-/

/-- Numeric digit value of a decimal digit character. -/
def digitVal (c : Char) : ℕ := c.toNat - 48

/-- Value of a list of decimal digit characters, most significant first. -/
def digitsToNat (l : List Char) : ℕ := l.foldl (fun a c => 10 * a + digitVal c) 0

/-- Model of Python `float(s)` restricted to the unsigned digits-and-dot
strings the adapters feed it (the regex captures contain only digits, dots,
commas and spaces, and the normalization leaves only digits and dots).
`none` models `float` raising `ValueError`. -/
def pyFloat (s : String) : Option ℚ :=
  let cs := s.toList
  if cs.all (fun c => c.isDigit || c = '.') then
    let intPart := cs.takeWhile (fun c => c ≠ '.')
    let rest := cs.dropWhile (fun c => c ≠ '.')
    match rest with
    | [] => if intPart.isEmpty then none else some ((digitsToNat intPart : ℚ))
    | _ :: frac =>
      if frac.all (fun c => c.isDigit) then
        if intPart.isEmpty && frac.isEmpty then none
        else some ((digitsToNat intPart : ℚ) + (digitsToNat frac : ℚ) / (10 : ℚ) ^ frac.length)
      else none
  else none

/-- Normalization applied by `fetch_price_rava_html` to the captured price
text: `raw.replace(".", "").replace(",", ".")` — every dot is deleted, then
every comma becomes a decimal point. -/
def normalize_rava (s : String) : String :=
  String.mk ((s.toList.filter (fun c => c ≠ '.')).map (fun c => if c = ',' then '.' else c))

/-- Normalization applied by `fetch_price_iol_html` to the captured price
text: `raw.replace(".", "").replace(" ", "").replace(",", ".")`. -/
def normalize_iol (s : String) : String :=
  String.mk (((s.toList.filter (fun c => c ≠ '.')).filter (fun c => c ≠ ' ')).map
    (fun c => if c = ',' then '.' else c))

/-- Case-insensitive prefix test on character lists, modelling the
`re.IGNORECASE` literal part of the `"ultima"` pattern. -/
def startsWithCI : List Char → List Char → Bool
  | [], _ => true
  | _ :: _, [] => false
  | p :: ps, c :: cs => (c.toLower = p.toLower) && startsWithCI ps cs

/-- Attempt to match the regex `"ultima"\s*:\s*"?([\d\.,]+)"?` at the head
of the character list, returning the captured group. -/
def ultimaAt (cs : List Char) : Option (List Char) :=
  if startsWithCI ([ '"', 'u', 'l', 't', 'i', 'm', 'a', '"' ]) cs then
    let r1 := (cs.drop 8).dropWhile (fun c => c.isWhitespace)
    match r1 with
    | ':' :: r2 =>
      let r3 := r2.dropWhile (fun c => c.isWhitespace)
      let r4 := match r3 with
        | '"' :: t => t
        | _ => r3
      let g := r4.takeWhile (fun c => c.isDigit || c = '.' || c = ',')
      if g.isEmpty then none else some g
    | _ => none
  else none

/-- Model of `re.search` for the `"ultima"` pattern: first position (left to
right) where the pattern matches, returning the captured group. -/
def findUltima : List Char → Option (List Char)
  | [] => none
  | c :: cs =>
    match ultimaAt (c :: cs) with
    | some g => some g
    | none => findUltima cs

/-- Outcome of the JSON decode step of the Rava API adapter: `r.json()`
raised, the decoded value is not a dict with a `"last"` key, or the
`"last"` field is present and `float` of it either succeeds (`lastNum`) or
raises (`lastBad`). -/
inductive JsonLast where
  | decodeError
  | notDictOrMissing
  | lastNum (q : ℚ)
  | lastBad
deriving DecidableEq

/-- Outcome of the single HTTP request made by `fetch_price_rava_api`:
either `requests.get` raised (DNS failure, refused connection, timeout), or
a response with a status code and the JSON decode outcome arrived. -/
inductive ApiOutcome where
  | raised
  | response (status : ℕ) (payload : JsonLast)
deriving DecidableEq

/-- Rava API adapter (`fetch_price_rava_api`): on a 200 response whose JSON
is a dict with a floatable `"last"` field it returns that value; every
other path — raised transport error, non-200 status, JSON decode error,
missing field, unfloatable field — falls through to `None`. -/
def fetch_price_rava_api (o : ApiOutcome) : Option ℚ :=
  match o with
  | .raised => none
  | .response status payload =>
    if status = 200 then
      match payload with
      | .lastNum q => some q
      | _ => none
    else none

/-- Outcome of the single HTTP request made by `fetch_price_rava_html`. -/
inductive HtmlOutcome where
  | raised
  | response (status : ℕ) (body : String)
deriving DecidableEq

/-- Rava HTML adapter (`fetch_price_rava_html`): non-200 returns `None`;
otherwise the page is searched for the `"ultima"` pattern and the captured
group is normalized and floated.  A failed `float` (ValueError) is caught
by the adapter's `except` and yields `None`. -/
def fetch_price_rava_html (o : HtmlOutcome) : Option ℚ :=
  match o with
  | .raised => none
  | .response status body =>
    if status = 200 then
      match findUltima body.toList with
      | some g => pyFloat (normalize_rava (String.mk g))
      | none => none
    else none

/-- Outcome of one HTTP request made by `fetch_price_iol_html` for one of
its two candidate URLs.  The provider-specific regex search over the page
body is abstracted by its result: `matched` is the captured price group
when the symbol-keyed pattern matched, `none` when it did not. -/
inductive IolOutcome where
  | raised
  | response (status : ℕ) (matched : Option String)
deriving DecidableEq

/-- One iteration of the URL loop in `fetch_price_iol_html`: a raised
transport error escapes to the adapter's `except` (aborting later URLs), a
non-200 status or a failed pattern match continues with the next URL, and a
match returns `float` of the normalized group (a `ValueError` there is
caught by the `except`, also aborting later URLs). -/
def iolStep (o : IolOutcome) (k : Option ℚ) : Option ℚ :=
  match o with
  | .raised => none
  | .response status matched =>
    if status = 200 then
      match matched with
      | some raw => pyFloat (normalize_iol raw)
      | none => k
    else k

/-- IOL HTML adapter (`fetch_price_iol_html`): tries its two candidate URLs
in order, `o1` then `o2`. -/
def fetch_price_iol_html (o1 o2 : IolOutcome) : Option ℚ :=
  iolStep o1 (iolStep o2 none)

/-- Outcome of a `yfinance` history call: the library raised, or it
produced a `Close` column (possibly empty); `none` entries are NaN rows
that `dropna()` removes. -/
inductive YfOutcome where
  | raised
  | hist (closes : List (Option ℚ))

/-- Treasury-yield adapter (`fetch_ust_yield`): returns the last non-NaN
close of the `^TNX` history when the frame is non-empty; an empty frame
falls through to `None`, and an all-NaN column makes `iloc[-1]` raise an
IndexError that the `except` turns into `None`. -/
def fetch_ust_yield (o : YfOutcome) : Option ℚ :=
  match o with
  | .raised => none
  | .hist closes =>
    if closes.isEmpty then none
    else
      match (closes.filterMap id).getLast? with
      | some v => some v
      | none => none

/-- Adapter identifiers used in the resolver's dispatch table. -/
inductive Src where
  | rava_api
  | yahoo
  | rava_html
  | iol_html
deriving DecidableEq

/-- Observable behaviour of the (cached) fetch adapters as seen by the
resolver: each price adapter maps the string it is called with (the symbol,
or in custom mode the user-supplied text) to a price or `None`, and the
yield adapter yields its one value or `None`. -/
structure Fetchers where
  rava_api : String → Option ℚ
  yahoo : String → Option ℚ
  rava_html : String → Option ℚ
  iol_html : String → Option ℚ
  ust : Option ℚ

/-- Dispatch from an adapter identifier to its fetch call, as written in
the `if src == ...` chain of the resolver's loop body. -/
def fetchSrc (F : Fetchers) (symbol : String) : Src → Option ℚ
  | .rava_api => F.rava_api symbol
  | .yahoo => F.yahoo symbol
  | .rava_html => F.rava_html symbol
  | .iol_html => F.iol_html symbol

/-- Provenance label returned for each adapter in the resolver's loop. -/
def srcLabel : Src → String
  | .rava_api => "Rava API"
  | .yahoo => "Yahoo"
  | .rava_html => "Rava (HTML)"
  | .iol_html => "IOL (HTML)"

/-- Default adapter order, the second argument of `order_map.get`. -/
def defaultOrder : List Src := [.rava_api, .yahoo, .rava_html, .iol_html]

/-- The `order_map` dict of `get_bono_price`, as a partial map from the
preference strings offered in the sidebar to adapter orders. -/
def order_map (pref : String) : Option (List Src) :=
  if pref = "Auto (recomendado)" then some ([.rava_api, .yahoo, .rava_html, .iol_html])
  else if pref = "Rava API" then some ([.rava_api, .yahoo, .rava_html, .iol_html])
  else if pref = "Yahoo Finance" then some ([.yahoo, .rava_api, .rava_html, .iol_html])
  else if pref = "Rava (HTML)" then some ([.rava_html, .rava_api, .yahoo, .iol_html])
  else if pref = "InvertirOnline (HTML)" then some ([.iol_html, .rava_api, .yahoo, .rava_html])
  else none

/-- The keys of `order_map`. -/
def order_map_keys : List String :=
  ["Auto (recomendado)", "Rava API", "Yahoo Finance", "Rava (HTML)", "InvertirOnline (HTML)"]

/-- The `for src in order` loop of `get_bono_price`: first adapter whose
fetch is non-`None` wins, with its label; an exhausted list yields the
`(None, "Ninguna")` sentinel. -/
def fallbackWalk (F : Fetchers) (symbol : String) : List Src → Option ℚ × String
  | [] => (none, "Ninguna")
  | s :: rest =>
    match fetchSrc F symbol s with
    | some p => (some p, srcLabel s)
    | none => fallbackWalk F symbol rest

/-- The resolver `get_bono_price`.  `entrada_personalizada` and
`precio_manual` are the module-level sidebar values it reads; the manual
branch tests Python truthiness of `entrada_personalizada` (non-`None` and
non-empty). -/
def get_bono_price (F : Fetchers) (entrada_personalizada : Option String)
    (precio_manual : Option ℚ) (symbol fuente_pref : String) : Option ℚ × String :=
  if fuente_pref = "Manual / URL personalizada" then
    match entrada_personalizada with
    | some e =>
      if e ≠ "" then
        match F.rava_api e with
        | some p => (some p, "Rava API (custom)")
        | none => (precio_manual, "Manual")
      else (precio_manual, "Manual")
    | none => (precio_manual, "Manual")
  else
    fallbackWalk F symbol ((order_map fuente_pref).getD defaultOrder)

/-- Sidebar state of lines 47-52: `precio_manual` starts as `None` and is
set (from the number input, default 30.0) only when the preference is the
manual option and the custom text input is empty; `entrada_personalizada`
is the text input in manual mode and `None` otherwise. -/
def sidebar_inputs (fuente : String) (texto : String) (manual_default : ℚ) :
    Option String × Option ℚ :=
  if fuente = "Manual / URL personalizada" then
    (some texto, if texto = "" then some manual_default else none)
  else (none, none)

/-- The risk computation `obtener_riesgo_actual`, returning
`(riesgo_pb, rendimiento_arg, rend_usa, precio_arg, fuente_usada)`.  The
outer `Option` is the exception marker: the division `100.0 / precio` is
unguarded, so a resolved price of exactly 0 raises an uncaught
`ZeroDivisionError`, modelled as `none`. -/
def obtener_riesgo_actual (F : Fetchers) (entrada_personalizada : Option String)
    (precio_manual : Option ℚ) (symbol fuente_pref : String) :
    Option (Option ℚ × Option ℚ × Option ℚ × Option ℚ × String) :=
  let r := get_bono_price F entrada_personalizada precio_manual symbol fuente_pref
  match r.1, F.ust with
  | some p, some u =>
    if p = 0 then none
    else
      let rendimiento_arg := max 0 ((100 / p) * 10)
      some (some ((rendimiento_arg - u) * 100), some rendimiento_arg, some u, some p, r.2)
  | none, us => some (none, none, us, none, r.2)
  | some p, none => some (none, none, none, some p, r.2)

/-- Fetchers built from constant adapter results, used to instantiate the
resolver-level theorems at concrete inputs. -/
def testFetchers (a y rh ih u : Option ℚ) : Fetchers :=
  { rava_api := fun _ => a
    yahoo := fun _ => y
    rava_html := fun _ => rh
    iol_html := fun _ => ih
    ust := u }

/-- When every adapter in the list fetches `None`, the walk returns the
`(None, "Ninguna")` sentinel. -/
lemma fallbackWalk_all_absent (F : Fetchers) (symbol : String) :
    ∀ l : List Src, (∀ s ∈ l, fetchSrc F symbol s = none) →
      fallbackWalk F symbol l = (none, "Ninguna") := by
  intro l
  induction l with
  | nil => intro _; rfl
  | cons a rest ih =>
    intro h
    have ha := h a (List.mem_cons_self a rest)
    simp only [fallbackWalk, ha]
    exact ih (fun s hs => h s (List.mem_cons_of_mem a hs))

/-- The walk returns the fetch of the first adapter that answers, with
that adapter's label, whatever the adapters after it would return. -/
lemma fallbackWalk_first_success (F : Fetchers) (symbol : String) :
    ∀ (l : List Src) (i : ℕ) (s : Src) (p : ℚ),
      (∀ j, j < i → ∀ t, l[j]? = some t → fetchSrc F symbol t = none) →
      l[i]? = some s → fetchSrc F symbol s = some p →
      fallbackWalk F symbol l = (some p, srcLabel s) := by
  intro l
  induction l with
  | nil => intro i s p _ hget _; simp at hget
  | cons a rest ih =>
    intro i s p hbefore hget hfetch
    cases i with
    | zero =>
      have haeq : a = s := by simpa using hget
      subst haeq
      simp only [fallbackWalk, hfetch]
    | succ n =>
      have ha : fetchSrc F symbol a = none := hbefore 0 (Nat.succ_pos n) a (by simp)
      simp only [fallbackWalk, ha]
      exact ih n s p
        (fun j hj t ht => hbefore (j + 1) (Nat.succ_lt_succ hj) t (by simpa using ht))
        (by simpa using hget) hfetch

/-- Claim C1: for every symbol and every non-manual source preference, the
resolver `get_bono_price` walks the adapters in the order given by the
preference (defaulting for unknown keys), returns on the first adapter
whose fetch is non-`None` that value paired with that adapter's label —
adapters after the first success do not affect the result — and returns the
`(None, "Ninguna")` sentinel when every adapter in the order is absent. -/
theorem c1_resolver_first_success (F : Fetchers) (entrada : Option String) (pm : Option ℚ)
    (symbol pref : String) (hpref : pref ≠ "Manual / URL personalizada") :
    (∀ (i : ℕ) (s : Src) (p : ℚ),
      (∀ j, j < i → ∀ t, ((order_map pref).getD defaultOrder)[j]? = some t →
        fetchSrc F symbol t = none) →
      ((order_map pref).getD defaultOrder)[i]? = some s →
      fetchSrc F symbol s = some p →
      get_bono_price F entrada pm symbol pref = (some p, srcLabel s))
    ∧ ((∀ s ∈ (order_map pref).getD defaultOrder, fetchSrc F symbol s = none) →
      get_bono_price F entrada pm symbol pref = (none, "Ninguna")) := by
  have horder : get_bono_price F entrada pm symbol pref =
      fallbackWalk F symbol ((order_map pref).getD defaultOrder) := by
    simp [get_bono_price, hpref]
  constructor
  · intro i s p hbefore hget hfetch
    rw [horder]
    exact fallbackWalk_first_success F symbol _ i s p hbefore hget hfetch
  · intro h
    rw [horder]
    exact fallbackWalk_all_absent F symbol _ h

/-- Witness for C1: with the Rava API adapter absent and Yahoo answering
34, preference "Rava API" resolves to Yahoo's price with Yahoo's label;
with every adapter absent it resolves to the sentinel. -/
theorem c1_resolver_first_success_witness :
    get_bono_price (testFetchers none (some 34) none none none) none none
      ("AL30D.BA") ("Rava API") = (some 34, "Yahoo") ∧
    get_bono_price (testFetchers none none none none none) none none
      ("AL30D.BA") ("Rava API") = (none, "Ninguna") := by
  constructor
  · exact (c1_resolver_first_success (testFetchers none (some 34) none none none) none none
      ("AL30D.BA") ("Rava API") (by decide)).1 1 Src.yahoo 34
      (by
        intro j hj t ht
        have hj0 : j = 0 := by omega
        subst hj0
        have hta : t = Src.rava_api := by
          have : ((order_map ("Rava API")).getD defaultOrder)[0]? = some Src.rava_api := by decide
          rw [this] at ht
          exact (Option.some_inj.mp ht).symm
        subst hta
        rfl)
      (by decide) rfl
  · exact (c1_resolver_first_success (testFetchers none none none none none) none none
      ("AL30D.BA") ("Rava API") (by decide)).2 (by intro s _; cases s <;> rfl)

/-- Claim C2: whenever the resolver returns a price p > 0 and the yield
adapter returns u, `obtener_riesgo_actual` computes
`rendimiento_arg = max 0 ((100 / p) * 10)` and
`riesgo_pb = (rendimiento_arg - u) * 100`; in particular with p = 30 and
u = 4 it yields rendimiento 100/3 = 33.33... and riesgo 8800/3, which is
within 0.01 of 2933.33. -/
theorem c2_risk_formula (F : Fetchers) (entrada : Option String) (pm : Option ℚ)
    (symbol pref : String) (p u : ℚ) (hp : 0 < p)
    (hprice : (get_bono_price F entrada pm symbol pref).1 = some p)
    (hust : F.ust = some u) :
    obtener_riesgo_actual F entrada pm symbol pref =
      some (some ((max 0 ((100 / p) * 10) - u) * 100), some (max 0 ((100 / p) * 10)), some u,
        some p, (get_bono_price F entrada pm symbol pref).2)
    ∧ obtener_riesgo_actual (testFetchers (some 30) none none none (some 4)) none none
        ("AL30D.BA") ("Auto (recomendado)") =
      some (some (8800 / 3), some (100 / 3), some 4, some 30, "Rava API")
    ∧ |(8800 : ℚ) / 3 - 293333 / 100| < 1 / 100 := by
  refine ⟨?_, ?_, ?_⟩
  · simp [obtener_riesgo_actual, hprice, hust, hp.ne']
  · simp +decide [obtener_riesgo_actual, get_bono_price, order_map, defaultOrder, fallbackWalk,
      fetchSrc, testFetchers, srcLabel]
    norm_num
  · rw [abs_sub_lt_iff]
    norm_num

/-- Witness for C2: the formula instantiated at price 30 and yield 4
through the "Yahoo Finance" preference, which falls back to the Rava API
adapter. -/
theorem c2_risk_formula_witness :
    obtener_riesgo_actual (testFetchers (some 30) none none none (some 4)) none none
      ("GD30D.BA") ("Yahoo Finance") =
      some (some ((max 0 ((100 / (30 : ℚ)) * 10) - 4) * 100), some (max 0 ((100 / (30 : ℚ)) * 10)),
        some 4, some 30,
        (get_bono_price (testFetchers (some 30) none none none (some 4)) none none
          ("GD30D.BA") ("Yahoo Finance")).2) :=
  (c2_risk_formula (testFetchers (some 30) none none none (some 4)) none none
    ("GD30D.BA") ("Yahoo Finance") 30 4 (by norm_num) (by decide) rfl).1

/-- Claim C4 (amended with the nonzero-price guard forced by the
counterexample): if either the resolved price or the US yield is absent,
`obtener_riesgo_actual` returns the unavailable tuple with `riesgo_pb` and
`rendimiento_arg` both `None`; and when both are present with a nonzero
price it returns a full reading. -/
theorem c4_unavailable_or_full (F : Fetchers) (entrada : Option String) (pm : Option ℚ)
    (symbol pref : String) :
    ((get_bono_price F entrada pm symbol pref).1 = none ∨ F.ust = none →
      obtener_riesgo_actual F entrada pm symbol pref =
        some (none, none, F.ust, (get_bono_price F entrada pm symbol pref).1,
          (get_bono_price F entrada pm symbol pref).2))
    ∧ (∀ p u, (get_bono_price F entrada pm symbol pref).1 = some p → F.ust = some u → p ≠ 0 →
      obtener_riesgo_actual F entrada pm symbol pref =
        some (some ((max 0 ((100 / p) * 10) - u) * 100), some (max 0 ((100 / p) * 10)), some u,
          some p, (get_bono_price F entrada pm symbol pref).2)) := by
  constructor
  · intro h
    rcases h with h | h
    · simp [obtener_riesgo_actual, h]
    · cases hr : (get_bono_price F entrada pm symbol pref).1 with
      | none => simp [obtener_riesgo_actual, hr, h]
      | some p => simp [obtener_riesgo_actual, hr, h]
  · intro p u hp hu hpz
    simp [obtener_riesgo_actual, hp, hu, hpz]

/-- Witness for C4: with every adapter and the yield absent, the result is
the unavailable tuple. -/
theorem c4_unavailable_or_full_witness :
    obtener_riesgo_actual (testFetchers none none none none none) none none ("AL30D.BA")
      ("Auto (recomendado)") =
      some (none, none, (testFetchers none none none none none).ust,
        (get_bono_price (testFetchers none none none none none) none none ("AL30D.BA")
          ("Auto (recomendado)")).1,
        (get_bono_price (testFetchers none none none none none) none none ("AL30D.BA")
          ("Auto (recomendado)")).2) :=
  (c4_unavailable_or_full (testFetchers none none none none none) none none
    ("AL30D.BA") ("Auto (recomendado)")).1 (Or.inr rfl)

/-- Counterexample to C4 as stated: a resolved price of 0 together with an
available US yield does not produce a full reading — the unguarded division
raises, modelled by the `none` exception marker. -/
theorem c4_counterexample :
    (get_bono_price (testFetchers (some 0) none none none (some 4)) none none ("AL30D.BA")
      ("Auto (recomendado)")).1 = some 0 ∧
    (testFetchers (some 0) none none none (some 4)).ust = some 4 ∧
    obtener_riesgo_actual (testFetchers (some 0) none none none (some 4)) none none ("AL30D.BA")
      ("Auto (recomendado)") = none := by
  refine ⟨by decide, rfl, ?_⟩
  simp +decide [obtener_riesgo_actual, get_bono_price, order_map, defaultOrder, fallbackWalk,
    fetchSrc, testFetchers]

/-- Claim C6 (the code-side evaluation): at the failing input — manual mode
with empty custom text, manual price 0, US yield 4 — the computation hits
`100.0 / 0.0` and the uncaught ZeroDivisionError is the `none` marker,
while a negative price does not fault and the floor-at-zero clamp applies
to the resulting yield. -/
theorem c6_zero_price_division_fault :
    obtener_riesgo_actual (testFetchers none none none none (some 4)) (some ("")) (some 0)
      ("AL30D.BA") ("Manual / URL personalizada") = none ∧
    obtener_riesgo_actual (testFetchers (some (-5)) none none none (some 4)) none none
      ("AL30D.BA") ("Auto (recomendado)") =
      some (some (-400), some 0, some 4, some (-5), "Rava API") := by
  constructor
  · simp +decide [obtener_riesgo_actual, get_bono_price, testFetchers]
  · simp +decide [obtener_riesgo_actual, get_bono_price, order_map, defaultOrder, fallbackWalk,
      fetchSrc, testFetchers, srcLabel]
    norm_num

/-- Counterexample to C7 as stated: in the end-to-end scenario (first
adapter absent, second adapter answering 34.20, yield 4.50) the spread is
exactly 423050/171 ≈ 2473.98, which differs from the claimed 2473.68 by
more than 0.29. -/
theorem c7_counterexample :
    obtener_riesgo_actual (testFetchers none (some (171 / 5)) none none (some (9 / 2))) none none
      ("AL30D.BA") ("Rava API") =
      some (some (423050 / 171), some (5000 / 171), some (9 / 2), some (171 / 5), "Yahoo") ∧
    |(423050 : ℚ) / 171 - 247368 / 100| > 29 / 100 := by
  constructor
  · simp +decide [obtener_riesgo_actual, get_bono_price, order_map, defaultOrder, fallbackWalk,
      fetchSrc, testFetchers, srcLabel]
    norm_num
  · have h : |(423050 : ℚ) / 171 - 247368 / 100| = 5072 / 17100 := by
      rw [abs_of_pos] <;> norm_num
    rw [h]
    norm_num

/-- Claim C7 (amended: the spread is ≈ 2473.98, not 2473.68): the scenario
reading has price 34.20, provenance crediting the second adapter (Yahoo),
approximate Argentine yield within 0.01 of 29.24 and spread within 0.01 of
2473.98. -/
theorem c7_scenario_amended :
    get_bono_price (testFetchers none (some (171 / 5)) none none (some (9 / 2))) none none
      ("AL30D.BA") ("Rava API") = (some (171 / 5), "Yahoo") ∧
    obtener_riesgo_actual (testFetchers none (some (171 / 5)) none none (some (9 / 2))) none none
      ("AL30D.BA") ("Rava API") =
      some (some (423050 / 171), some (5000 / 171), some (9 / 2), some (171 / 5), "Yahoo") ∧
    |(5000 : ℚ) / 171 - 2924 / 100| < 1 / 100 ∧
    |(423050 : ℚ) / 171 - 247398 / 100| < 1 / 100 := by
  refine ⟨?_, ?_, ?_, ?_⟩
  · simp +decide [get_bono_price, order_map, defaultOrder, fallbackWalk, fetchSrc, testFetchers,
      srcLabel]
  · simp +decide [obtener_riesgo_actual, get_bono_price, order_map, defaultOrder, fallbackWalk,
      fetchSrc, testFetchers, srcLabel]
    norm_num
  · rw [abs_sub_lt_iff]
    norm_num
  · rw [abs_sub_lt_iff]
    norm_num

/-- Counterexample to C3 as stated: the normalization does not detect the
separator convention from the input shape — on a page carrying the plain
decimal text `34.55` the Rava HTML adapter parses 3455, not 34.55. -/
theorem c3_counterexample :
    fetch_price_rava_html (HtmlOutcome.response 200 ("\"ultima\": \"34.55\"")) = some 3455 ∧
    fetch_price_rava_html (HtmlOutcome.response 200 ("\"ultima\": \"34.55\"")) ≠
      some (691 / 20) := by
  have h : fetch_price_rava_html (HtmlOutcome.response 200 ("\"ultima\": \"34.55\"")) =
      some 3455 := by
    simp +decide [fetch_price_rava_html, findUltima, ultimaAt, startsWithCI, pyFloat,
      normalize_rava, digitsToNat, digitVal]
  refine ⟨h, ?_⟩
  rw [h]
  intro hc
  have hq := Option.some_inj.mp hc
  norm_num at hq

/-- Claim C3 (amended): the normalization unconditionally deletes `.` (and,
in the IOL adapter, spaces) and turns `,` into the decimal point, so
dot-thousands/comma-decimal strings parse to the grouped value
("1.234,56" → 1234.56, "1 234,55" → 1234.55) while a plain dot-decimal
string parses to its digits with the dot removed ("34.55" → 3455). -/
theorem c3_normalization_amended :
    fetch_price_rava_html (HtmlOutcome.response 200 ("\"ultima\": \"1.234,56\"")) =
      some (30864 / 25) ∧
    pyFloat (normalize_iol ("1.234,56")) = some (30864 / 25) ∧
    pyFloat (normalize_rava ("34.55")) = some 3455 ∧
    pyFloat (normalize_iol ("1 234,55")) = some (24691 / 20) := by
  refine ⟨?_, ?_, ?_, ?_⟩
  · simp +decide [fetch_price_rava_html, findUltima, ultimaAt, startsWithCI, pyFloat,
      normalize_rava, digitsToNat, digitVal]
    norm_num
  · simp +decide [pyFloat, normalize_iol, digitsToNat, digitVal]
    norm_num
  · simp +decide [pyFloat, normalize_rava, digitsToNat, digitVal]
  · simp +decide [pyFloat, normalize_iol, digitsToNat, digitVal]
    norm_num

/-- Claim C5: the API adapter, both HTML-scrape adapters and the yield
adapter map every fault — raised transport error, non-200 status, malformed
JSON, missing field, failed pattern match, unparsable numeric text, empty
or all-NaN history — to `None`; no fault escapes an adapter body. -/
theorem c5_adapters_absent_on_fault :
    (fetch_price_rava_api ApiOutcome.raised = none) ∧
    (∀ (status : ℕ) (payload : JsonLast), status ≠ 200 →
      fetch_price_rava_api (ApiOutcome.response status payload) = none) ∧
    (∀ status : ℕ, fetch_price_rava_api (ApiOutcome.response status JsonLast.decodeError) = none) ∧
    (∀ status : ℕ,
      fetch_price_rava_api (ApiOutcome.response status JsonLast.notDictOrMissing) = none) ∧
    (∀ status : ℕ, fetch_price_rava_api (ApiOutcome.response status JsonLast.lastBad) = none) ∧
    (fetch_price_rava_html HtmlOutcome.raised = none) ∧
    (∀ (status : ℕ) (body : String), status ≠ 200 →
      fetch_price_rava_html (HtmlOutcome.response status body) = none) ∧
    (∀ body : String, findUltima body.toList = none →
      fetch_price_rava_html (HtmlOutcome.response 200 body) = none) ∧
    (∀ (body : String) (g : List Char), findUltima body.toList = some g →
      pyFloat (normalize_rava (String.mk g)) = none →
      fetch_price_rava_html (HtmlOutcome.response 200 body) = none) ∧
    (∀ o2 : IolOutcome, fetch_price_iol_html IolOutcome.raised o2 = none) ∧
    (∀ (s1 s2 : ℕ) (m1 m2 : Option String), s1 ≠ 200 → s2 ≠ 200 →
      fetch_price_iol_html (IolOutcome.response s1 m1) (IolOutcome.response s2 m2) = none) ∧
    (∀ s1 s2 : ℕ,
      fetch_price_iol_html (IolOutcome.response s1 none) (IolOutcome.response s2 none) = none) ∧
    (∀ (raw : String) (o2 : IolOutcome), pyFloat (normalize_iol raw) = none →
      fetch_price_iol_html (IolOutcome.response 200 (some raw)) o2 = none) ∧
    (fetch_ust_yield YfOutcome.raised = none) ∧
    (fetch_ust_yield (YfOutcome.hist []) = none) ∧
    (∀ closes : List (Option ℚ), closes.filterMap id = [] →
      fetch_ust_yield (YfOutcome.hist closes) = none) := by
  refine ⟨rfl, ?_, ?_, ?_, ?_, rfl, ?_, ?_, ?_, fun o2 => rfl, ?_, ?_, ?_, rfl, rfl, ?_⟩
  · intro status payload h
    simp [fetch_price_rava_api, h]
  · intro status
    simp [fetch_price_rava_api]
  · intro status
    simp [fetch_price_rava_api]
  · intro status
    simp [fetch_price_rava_api]
  · intro status body h
    simp [fetch_price_rava_html, h]
  · intro body h
    have h2 : findUltima body.data = none := h
    simp [fetch_price_rava_html, h2]
  · intro body g hg hf
    have hg2 : findUltima body.data = some g := hg
    simp [fetch_price_rava_html, hg2, hf]
  · intro s1 s2 m1 m2 h1 h2
    simp [fetch_price_iol_html, iolStep, h1, h2]
  · intro s1 s2
    simp [fetch_price_iol_html, iolStep]
  · intro raw o2 h
    simp [fetch_price_iol_html, iolStep, h]
  · intro closes h
    simp [fetch_ust_yield, h]

/-- Witness for C5: a 404 from the Rava API with an undecodable body is
absorbed into `None`. -/
theorem c5_adapters_absent_on_fault_witness :
    fetch_price_rava_api (ApiOutcome.response 404 JsonLast.decodeError) = none :=
  c5_adapters_absent_on_fault.2.1 404 JsonLast.decodeError (by decide)

/-- Claim C8: every preference key of the dispatch table maps to an adapter
list containing each of the four known adapters exactly once. -/
theorem c8_preferences_total (pref : String) (hpref : pref ∈ order_map_keys) :
    ∃ l, order_map pref = some l ∧ ∀ s : Src, l.count s = 1 := by
  simp [order_map_keys] at hpref
  rcases hpref with h | h | h | h | h <;> subst h <;>
    exact ⟨_, rfl, by intro s; cases s <;> rfl⟩

/-- Witness for C8: the "InvertirOnline (HTML)" preference covers all four
adapters exactly once. -/
theorem c8_preferences_total_witness :
    ∃ l, order_map ("InvertirOnline (HTML)") = some l ∧ ∀ s : Src, l.count s = 1 :=
  c8_preferences_total ("InvertirOnline (HTML)") (by decide)

/-- Claim C9: a preference string that is neither a dispatch-table key nor
the manual option falls back to the default adapter order, so the resolver
behaves exactly as under the "Auto (recomendado)" preference and still
returns a (price, label) pair. -/
theorem c9_unknown_pref_defaults (F : Fetchers) (entrada : Option String) (pm : Option ℚ)
    (symbol pref : String) (hkey : pref ∉ order_map_keys)
    (hman : pref ≠ "Manual / URL personalizada") :
    order_map pref = none ∧
    get_bono_price F entrada pm symbol pref = fallbackWalk F symbol defaultOrder ∧
    get_bono_price F entrada pm symbol pref =
      get_bono_price F entrada pm symbol ("Auto (recomendado)") := by
  have hnone : order_map pref = none := by
    simp [order_map_keys] at hkey
    obtain ⟨h1, h2, h3, h4, h5⟩ := hkey
    simp [order_map, h1, h2, h3, h4, h5]
  have h1 : get_bono_price F entrada pm symbol pref = fallbackWalk F symbol defaultOrder := by
    simp [get_bono_price, hman, hnone]
  have h2 : get_bono_price F entrada pm symbol ("Auto (recomendado)") =
      fallbackWalk F symbol defaultOrder := by
    simp +decide [get_bono_price, order_map, defaultOrder]
  exact ⟨hnone, h1, h1.trans h2.symm⟩

/-- Witness for C9: the unknown preference "Bloomberg" resolves through the
default order. -/
theorem c9_unknown_pref_defaults_witness :
    order_map ("Bloomberg") = none ∧
    get_bono_price (testFetchers none none none none none) none none ("AL30D.BA") ("Bloomberg") =
      fallbackWalk (testFetchers none none none none none) ("AL30D.BA") defaultOrder ∧
    get_bono_price (testFetchers none none none none none) none none ("AL30D.BA") ("Bloomberg") =
      get_bono_price (testFetchers none none none none none) none none ("AL30D.BA")
        ("Auto (recomendado)") :=
  c9_unknown_pref_defaults (testFetchers none none none none none) none none ("AL30D.BA")
    ("Bloomberg") (by decide) (by decide)

/-- Claim C10: in manual mode with a non-empty custom text the manual
numeric price stays `None`, so when the custom fetch through the Rava API
is absent the resolver returns the pair `(None, "Manual")` — an absent
price whose provenance label credits the Manual source. -/
theorem c10_manual_custom_absent (F : Fetchers) (texto : String) (d : ℚ) (symbol : String)
    (htext : texto ≠ "") (hfetch : F.rava_api texto = none) :
    (sidebar_inputs ("Manual / URL personalizada") texto d).2 = none ∧
    get_bono_price F (sidebar_inputs ("Manual / URL personalizada") texto d).1
      (sidebar_inputs ("Manual / URL personalizada") texto d).2 symbol
      ("Manual / URL personalizada") = (none, "Manual") := by
  have hside : sidebar_inputs ("Manual / URL personalizada") texto d = (some texto, none) := by
    simp [sidebar_inputs, htext]
  rw [hside]
  exact ⟨rfl, by simp [get_bono_price, htext, hfetch]⟩

/-- Witness for C10: custom text "AL30D" with the Rava API absent yields
`(None, "Manual")`. -/
theorem c10_manual_custom_absent_witness :
    (sidebar_inputs ("Manual / URL personalizada") ("AL30D") 30).2 = none ∧
    get_bono_price (testFetchers none none none none none)
      (sidebar_inputs ("Manual / URL personalizada") ("AL30D") 30).1
      (sidebar_inputs ("Manual / URL personalizada") ("AL30D") 30).2 ("AL30D.BA")
      ("Manual / URL personalizada") = (none, "Manual") :=
  c10_manual_custom_absent (testFetchers none none none none none) ("AL30D") 30 ("AL30D.BA")
    (by decide) rfl
